import Mathlib

/-!
Verification of `exhale/utils.py` against its specification.

The Python module is embedded shallowly: the `configs` globals become
explicit parameters (the sanity-check marker string, the custom
specifications mapping, the `alwaysColorize` flag), stream TTY-ness
becomes a `Bool` parameter, exceptions become `Except PyErr`, dynamic
Python values become the `PyVal` inductive, and the single file read is
modelled through an abstract `FileSystem`.
-/

/-- Kind of a Python exception, as raised by `utils.py`:
`ValueError` (bad input to `makeCustomSpecificationsMapping`),
`RuntimeError` (validation / wrapping inside the builder),
`KeyError` (dict lookup miss in `specificationsForKind`),
or any other exception raised by a user callback. -/
inductive PyErrKind where
  | valueError
  | runtimeError
  | keyError
  | otherError
deriving DecidableEq

/-- A Python exception: its kind plus the string `str(e)` renders to
(for the exceptions in this module that is exactly the message the
exception was constructed from). -/
structure PyErr where
  kind : PyErrKind
  msg : String
deriving DecidableEq

/-- A dynamic Python value, as far as this module inspects one:
a `str`, a list of strings (the default specifications), or any
non-string value (modelled by `pint` / `pnone`). -/
inductive PyVal where
  | pstr (s : String)
  | plist (l : List String)
  | pint (n : Int)
  | pnone
deriving DecidableEq

/-- Whether a `PyVal` is a Python `str` (the `type(specs) is not str`
check in `makeCustomSpecificationsMapping`). -/
def PyVal.isStr : PyVal → Bool
  | PyVal.pstr _ => true
  | _ => false

/-- The `AVAILABLE_KINDS` list from `utils.py`, verbatim and in order. -/
def AVAILABLE_KINDS : List String :=
  ["class", "struct", "function", "enum", "enumvalue", "namespace",
   "define", "typedef", "variable", "file", "dir", "group", "union"]

/-- Python dict insertion on an insertion-ordered association list:
overwrite in place when the key is present, append otherwise. -/
def dictInsert (d : List (String × String)) (k v : String) :
    List (String × String) :=
  if d.any (fun p => p.1 == k) then
    d.map (fun p => if p.1 == k then (p.1, v) else p)
  else
    d ++ [(k, v)]

/-- Python dict lookup on an insertion-ordered association list. -/
def dictGet (d : List (String × String)) (k : String) : Option String :=
  (d.find? (fun p => p.1 == k)).map (fun p => p.2)

/-- The error message raised inside the builder loop when the custom
specifications function returns a non-string for `kind`. -/
def nonStrMsg (kind : String) : String :=
  "The custom specifications function did not return a string for input `"
    ++ kind ++ "`"

/-- The `for kind in AVAILABLE_KINDS` loop body of
`makeCustomSpecificationsMapping`: invoke `func` on each kind, require a
`str` result, and store it; any exception aborts the loop. -/
def specLoop (f : String → Except PyErr PyVal) :
    List String → List (String × String) →
      Except PyErr (List (String × String))
  | [], ret => Except.ok ret
  | kind :: rest, ret =>
    match f kind with
    | Except.error e => Except.error e
    | Except.ok specs =>
      match specs with
      | PyVal.pstr s => specLoop f rest (dictInsert ret kind s)
      | _ => Except.error ⟨PyErrKind.runtimeError, nonStrMsg kind⟩

/-- The argument given to `makeCustomSpecificationsMapping`: either a
plain function object (`types.FunctionType`), modelled by its behavior
on each kind string, or anything else, modelled by the name of its type
(what `type(func)` formats to). -/
inductive FuncInput where
  | func (f : String → Except PyErr PyVal)
  | notFunction (typeName : String)

/-- Embedding of `makeCustomSpecificationsMapping`. The
`configs._closure_map_sanity_check` marker is passed explicitly as
`sanity` (the configuration module only supplies its value). The first
entry stamps the returned dict with the marker; the loop stores one
entry per kind; any exception escaping the loop is wrapped in a
`RuntimeError` whose message appends `str(e)`. -/
def makeCustomSpecificationsMapping (sanity : String) (input : FuncInput) :
    Except PyErr (List (String × String)) :=
  match input with
  | FuncInput.notFunction typeName =>
      Except.error ⟨PyErrKind.valueError,
        "The input to exhale.util.makeCustomSpecificationsMapping was *NOT* a function: "
          ++ typeName⟩
  | FuncInput.func f =>
      match specLoop f AVAILABLE_KINDS [(sanity, sanity)] with
      | Except.ok ret => Except.ok ret
      | Except.error e =>
          Except.error ⟨PyErrKind.runtimeError,
            "Unable to create custom specifications:\n" ++ e.msg⟩

/-- Embedding of `specificationsForKind`. The
`configs.customSpecificationsMapping` global is passed explicitly; the
empty list models a falsy value (`None` or an empty dict), matching
Python truthiness in `if configs.customSpecificationsMapping:`. A
registered mapping is consulted with a raw dict lookup (`KeyError` on a
miss); otherwise `class` and `struct` get the three default modifiers
and every other kind gets the empty list. -/
def specificationsForKind (customSpecificationsMapping : List (String × String))
    (kind : String) : Except PyErr PyVal :=
  if customSpecificationsMapping ≠ [] then
    match dictGet customSpecificationsMapping kind with
    | some v => Except.ok (PyVal.pstr v)
    | none => Except.error ⟨PyErrKind.keyError, kind⟩
  else if kind == "class" || kind == "struct" then
    Except.ok (PyVal.plist [":members:", ":protected-members:", ":undoc-members:"])
  else
    Except.ok (PyVal.plist [])

/-- Python `str.capitalize` on the strings this module feeds it: first
character uppercased, the rest lowercased. -/
def pyCapitalize (s : String) : String :=
  match s.data with
  | [] => ""
  | c :: rest => String.mk (Char.toUpper c :: rest.map Char.toLower)

/-- Embedding of `qualifyKind`: `dir` maps to `Directory`, everything
else is `kind.capitalize()`. -/
def qualifyKind (kind : String) : String :=
  if kind == "dir" then "Directory" else pyCapitalize kind

/-- Stated from the specification text, for comparison with
`qualifyKind`: the kind string with its first character capitalized and
the rest untouched. -/
def capitalizeFirstSpec (s : String) : String :=
  match s.data with
  | [] => ""
  | c :: rest => String.mk (Char.toUpper c :: rest)

/-- Python `str.splitlines(True)` on the line boundaries this module
produces: splits after a newline, carriage return, or the pair CR LF,
keeping the line ending on each line. -/
def splitlinesAux : List Char → List Char → List String
  | [], acc => if acc.isEmpty then [] else [String.mk acc.reverse]
  | '\r' :: '\n' :: rest, acc =>
      String.mk (acc.reverse ++ ['\r', '\n']) :: splitlinesAux rest []
  | '\n' :: rest, acc =>
      String.mk (acc.reverse ++ ['\n']) :: splitlinesAux rest []
  | '\r' :: rest, acc =>
      String.mk (acc.reverse ++ ['\r']) :: splitlinesAux rest []
  | c :: rest, acc => splitlinesAux rest (c :: acc)

/-- Python `s.splitlines(True)`: the lines of `s`, endings kept. -/
def splitlinesKeepends (s : String) : List String :=
  splitlinesAux s.data []

/-- Embedding of `utils.indent` (the `textwrap.indent` copy): add `tok`
to the beginning of every line on which `pred` holds. -/
def indent (text tok : String) (pred : String → Bool) : String :=
  String.join ((splitlinesKeepends text).map
    (fun line => if pred line then tok ++ line else line))

/-- Embedding of `utils.prefix`: `indent` with an always-true predicate,
so empty lines are prefixed too. -/
def prefixToken (token msg : String) : String :=
  indent msg token (fun _ => true)

namespace AnsiColors

/-- The ANSI bold modifier from `utils.AnsiColors`. -/
def BOLD : String := "1m"

/-- The ANSI green color from `utils.AnsiColors`. -/
def GREEN : String := "32m"

/-- The ANSI bold green color from `utils.AnsiColors`. -/
def BOLD_GREEN : String := "32;" ++ BOLD

/-- The ANSI red color from `utils.AnsiColors`. -/
def RED : String := "31m"

/-- The ANSI bold red color from `utils.AnsiColors`. -/
def BOLD_RED : String := "31;" ++ BOLD

end AnsiColors

/-- Embedding of `utils.colorize`: wrap `msg` between the ANSI escape
introducer plus `ansi_fmt` and the ANSI reset sequence. -/
def colorize (msg ansi_fmt : String) : String :=
  "\x1b[" ++ ansi_fmt ++ msg ++ "\x1b[0m"

/-- Embedding of `utils._use_color`: the `configs.alwaysColorize` global
and the output stream TTY-ness are passed explicitly; plain text exactly
when the flag is unset and the stream is not a TTY, colorized otherwise. -/
def useColor (alwaysColorize outputStreamIsatty : Bool)
    (msg ansi_fmt : String) : String :=
  if !alwaysColorize && !outputStreamIsatty then msg
  else colorize msg ansi_fmt

/-- Embedding of `utils.progress` at its default arguments: prefix each
line with the progress glyph and colorize in bold green subject to
`useColor` (stdout is the default stream; its TTY-ness is the second
argument). -/
def progress (alwaysColorize stdoutIsatty : Bool) (msg : String) : String :=
  useColor alwaysColorize stdoutIsatty (prefixToken "[+] " msg)
    AnsiColors.BOLD_GREEN

/-- Embedding of `utils.critical` at its default arguments: prefix each
line with the critical glyph and colorize in bold red subject to
`useColor` (stderr is the default stream; its TTY-ness is the second
argument). -/
def critical (alwaysColorize stderrIsatty : Bool) (msg : String) : String :=
  useColor alwaysColorize stderrIsatty (prefixToken "(!) " msg)
    AnsiColors.BOLD_RED

/-- Behavior of the `singleton_hook` callback when invoked: normal
return or an exception. -/
abbrev Hook := Except PyErr Unit

/-- A Python call-site argument: omitted (the parameter takes its
current default) or given explicitly. -/
inductive Arg (α : Type) where
  | omitted
  | given (a : α)

/-- Resolve an argument against the parameter's current default value. -/
def Arg.resolve {α : Type} : Arg α → α → α
  | Arg.omitted, d => d
  | Arg.given a, _ => a

/-- Python string truthiness of an optional `str`: `None` and the empty
string are falsy. -/
def pyTruthyStr : Option String → Bool
  | none => false
  | some s => !s.isEmpty

/-- Observable outcome of one `fancyError` call: the strings written to
stderr in order, whether `singleton_hook` was invoked, the process exit
status passed to `os._exit`, and the function's `__defaults__` pair
after the call. -/
structure FEResult where
  writes : List String
  hookInvoked : Bool
  exitCode : Nat
  defaultsAfter : Option String × Option Hook

/-- The `__defaults__` of `fancyError` as defined
(`critical_msg=None, singleton_hook=None`). -/
def fancyErrorDefaults : Option String × Option Hook := (none, none)

/-- Embedding of `utils.fancyError`. The mutable `__defaults__` pair is
threaded explicitly; `tracebackText` stands for the `fancyErrorString()`
output (an external traceback render). A truthy `critical_msg` is
written through `critical`; the traceback is always written; a truthy
`singleton_hook` resets `__defaults__` to `(None, None)` before being
invoked, with any exception it raises reported through `critical` and
not propagated; every path ends in `os._exit(1)`. -/
def fancyError (alwaysColorize stderrIsatty : Bool) (tracebackText : String)
    (defaults : Option String × Option Hook)
    (critical_msg_arg : Arg (Option String))
    (singleton_hook_arg : Arg (Option Hook)) : FEResult :=
  let critical_msg := critical_msg_arg.resolve defaults.1
  let singleton_hook := singleton_hook_arg.resolve defaults.2
  let w1 : List String :=
    if pyTruthyStr critical_msg then
      [critical alwaysColorize stderrIsatty (critical_msg.getD "")]
    else []
  let w2 := w1 ++ [tracebackText]
  match singleton_hook with
  | some h =>
      let w3 :=
        match h with
        | Except.ok _ => []
        | Except.error e =>
            [critical alwaysColorize stderrIsatty
              ("fancyError: `singleton_hook` caused exception: " ++ e.msg)]
      ⟨w2 ++ w3, true, 1, (none, none)⟩
  | none => ⟨w2, false, 1, defaults⟩

/-- Abstract filesystem for the single best-effort read in
`nodeCompoundXMLContents`: whether a path is a regular file, and what
reading it yields (contents, or a raised exception). -/
structure FileSystem where
  isfile : String → Bool
  readFile : String → Except String String

/-- POSIX `os.path.join` on two components, as used with
`configs.doxygenOutputDirectory` and the refid file name. -/
def joinPath (dir fname : String) : String :=
  if fname.startsWith "/" then fname
  else if dir = "" || dir.endsWith "/" then dir ++ fname
  else dir ++ "/" ++ fname

/-- Embedding of `nodeCompoundXMLContents`: the node is represented by
its `refid`, the `configs.doxygenOutputDirectory` global is passed
explicitly, and file access goes through the abstract `FileSystem`.
Missing file or a read failure both yield `none`; a successful read
yields the exact contents. -/
def nodeCompoundXMLContents (fs : FileSystem)
    (doxygenOutputDirectory refid : String) : Option String :=
  let node_xml_path := joinPath doxygenOutputDirectory (refid ++ ".xml")
  if fs.isfile node_xml_path then
    match fs.readFile node_xml_path with
    | Except.ok contents => some contents
    | Except.error _ => none
  else none

/-! Theorems -/

/-- C10: for every input that is not a plain function object,
`makeCustomSpecificationsMapping` raises a `ValueError` whose message
names the offending type, producing no mapping entries (the result is an
error, not a mapping) and never invoking the input. -/
theorem makeCustomSpecificationsMapping_rejects_non_function
    (sanity typeName : String) :
    makeCustomSpecificationsMapping sanity (FuncInput.notFunction typeName) =
      Except.error ⟨PyErrKind.valueError,
        "The input to exhale.util.makeCustomSpecificationsMapping was *NOT* a function: "
          ++ typeName⟩ := rfl

/-- C8: `qualifyKind` maps `dir` to `Directory`, and every other known
kind to the kind string with its first character capitalized. -/
theorem qualifyKind_known_kinds :
    qualifyKind "dir" = "Directory" ∧
    ∀ k ∈ AVAILABLE_KINDS, k ≠ "dir" → qualifyKind k = capitalizeFirstSpec k := by
  constructor
  · rfl
  · decide

/-- Witness for C8 at the concrete kind `class`. -/
theorem qualifyKind_known_kinds_witness :
    ("class" ∈ AVAILABLE_KINDS ∧ "class" ≠ "dir") ∧
      qualifyKind "class" = capitalizeFirstSpec "class" :=
  ⟨⟨by decide, by decide⟩,
    qualifyKind_known_kinds.2 "class" (by decide) (by decide)⟩

/-- C4: with no custom mapping registered (falsy global),
`specificationsForKind` returns exactly the three default modifiers, in
order, for `class` and `struct`, and the empty list for every other
known kind. -/
theorem specificationsForKind_default :
    specificationsForKind [] "class" =
      Except.ok (PyVal.plist [":members:", ":protected-members:", ":undoc-members:"]) ∧
    specificationsForKind [] "struct" =
      Except.ok (PyVal.plist [":members:", ":protected-members:", ":undoc-members:"]) ∧
    ∀ kind ∈ AVAILABLE_KINDS, kind ≠ "class" → kind ≠ "struct" →
      specificationsForKind [] kind = Except.ok (PyVal.plist []) := by
  refine ⟨rfl, rfl, ?_⟩
  intro kind hk h1 h2
  fin_cases hk <;> first | rfl | (exact absurd rfl h1) | (exact absurd rfl h2)

/-- Witness for C4 at the concrete kind `enum`. -/
theorem specificationsForKind_default_witness :
    ("enum" ∈ AVAILABLE_KINDS ∧ "enum" ≠ "class" ∧ "enum" ≠ "struct") ∧
      specificationsForKind [] "enum" = Except.ok (PyVal.plist []) :=
  ⟨⟨by decide, by decide, by decide⟩,
    specificationsForKind_default.2.2 "enum" (by decide) (by decide) (by decide)⟩

/-- C7: `progress` on the message holding an empty middle line prefixes
the glyph to all three lines, including the empty one; whenever the
always-colorize flag is set or the stream is a TTY the result is wrapped
in the bold-green ANSI escape and the reset suffix, and with the flag
unset on a non-TTY stream the plain prefixed text is returned. -/
theorem progress_colorization :
    progress true true "a\n\nb" = "\x1b[32;1m[+] a\n[+] \n[+] b\x1b[0m" ∧
    progress true false "a\n\nb" = "\x1b[32;1m[+] a\n[+] \n[+] b\x1b[0m" ∧
    progress false true "a\n\nb" = "\x1b[32;1m[+] a\n[+] \n[+] b\x1b[0m" ∧
    progress false false "a\n\nb" = "[+] a\n[+] \n[+] b" := by
  refine ⟨?_, ?_, ?_, ?_⟩ <;> rfl

/-- C9: `nodeCompoundXMLContents` returns `none` when the refid's XML
file does not exist or its read raises (the failure is swallowed, never
propagated), and returns the file's exact contents when the read
succeeds. -/
theorem nodeCompoundXMLContents_spec (fs : FileSystem) (dir refid : String) :
    (fs.isfile (joinPath dir (refid ++ ".xml")) = false →
      nodeCompoundXMLContents fs dir refid = none) ∧
    (∀ e, fs.isfile (joinPath dir (refid ++ ".xml")) = true →
      fs.readFile (joinPath dir (refid ++ ".xml")) = Except.error e →
      nodeCompoundXMLContents fs dir refid = none) ∧
    (∀ c, fs.isfile (joinPath dir (refid ++ ".xml")) = true →
      fs.readFile (joinPath dir (refid ++ ".xml")) = Except.ok c →
      nodeCompoundXMLContents fs dir refid = some c) := by
  refine ⟨?_, ?_, ?_⟩
  · intro h
    simp [nodeCompoundXMLContents, h]
  · intro e h hr
    simp [nodeCompoundXMLContents, h, hr]
  · intro c h hr
    simp [nodeCompoundXMLContents, h, hr]

/-- Witness for C9: a filesystem on which every read succeeds with fixed
contents, evaluated on a refid, and a filesystem with no files at all. -/
theorem nodeCompoundXMLContents_spec_witness :
    nodeCompoundXMLContents
        ⟨fun _ => true, fun _ => Except.ok "<xml/>"⟩ "out" "node1" = some "<xml/>" ∧
    nodeCompoundXMLContents
        ⟨fun _ => false, fun _ => Except.error "io"⟩ "out" "node2" = none :=
  ⟨(nodeCompoundXMLContents_spec
      ⟨fun _ => true, fun _ => Except.ok "<xml/>"⟩ "out" "node1").2.2 "<xml/>" rfl rfl,
   (nodeCompoundXMLContents_spec
      ⟨fun _ => false, fun _ => Except.error "io"⟩ "out" "node2").1 rfl⟩

/-- Inserting a key absent from the association list appends it. -/
theorem dictInsert_fresh (d : List (String × String)) (k v : String)
    (h : ∀ p ∈ d, p.1 ≠ k) : dictInsert d k v = d ++ [(k, v)] := by
  have hany : d.any (fun p => p.1 == k) = false := by
    simp only [List.any_eq_false]
    intro p hp
    simpa using h p hp
  simp [dictInsert, hany]

/-- The builder loop over a duplicate-free kind list, when the function
returns a string on every kind, appends one entry per kind in order. -/
theorem specLoop_total_str (g : String → String) (kinds : List String) :
    ∀ ret : List (String × String),
      kinds.Nodup →
      (∀ k ∈ kinds, ∀ p ∈ ret, p.1 ≠ k) →
      specLoop (fun s => Except.ok (PyVal.pstr (g s))) kinds ret =
        Except.ok (ret ++ kinds.map (fun k => (k, g k))) := by
  induction kinds with
  | nil =>
      intro ret _ _
      simp [specLoop]
  | cons k0 rest ih =>
      intro ret hnd hfresh
      have hins : dictInsert ret k0 (g k0) = ret ++ [(k0, g k0)] :=
        dictInsert_fresh ret k0 (g k0)
          (fun p hp => hfresh k0 (List.mem_cons_self k0 rest) p hp)
      have hk0 : k0 ∉ rest := (List.nodup_cons.mp hnd).1
      have hfresh2 : ∀ k ∈ rest, ∀ p ∈ ret ++ [(k0, g k0)], p.1 ≠ k := by
        intro k hk p hp
        rcases List.mem_append.mp hp with h1 | h1
        · exact hfresh k (List.mem_cons_of_mem k0 hk) p h1
        · have hpe : p = (k0, g k0) := by simpa using h1
          subst hpe
          intro he
          have he2 : k0 = k := he
          exact hk0 (he2.symm ▸ hk)
      have hrec := ih (ret ++ [(k0, g k0)]) (List.nodup_cons.mp hnd).2 hfresh2
      simp only [specLoop, hins, hrec, List.append_assoc, List.map_cons,
        List.singleton_append]

/-- C1: for every total string-returning function, the builder succeeds
and returns exactly the authenticity-marker entry followed by one entry
per known kind, each mapped to the function's return value, and nothing
else (the marker value supplied by the configuration is not itself a
kind string). -/
theorem makeCustomSpecificationsMapping_success (sanity : String)
    (g : String → String) (hs : sanity ∉ AVAILABLE_KINDS) :
    makeCustomSpecificationsMapping sanity
        (FuncInput.func (fun k => Except.ok (PyVal.pstr (g k)))) =
      Except.ok ((sanity, sanity) :: AVAILABLE_KINDS.map (fun k => (k, g k))) := by
  have hnd : AVAILABLE_KINDS.Nodup := by decide
  have hfresh : ∀ k ∈ AVAILABLE_KINDS, ∀ p ∈ [(sanity, sanity)], p.1 ≠ k := by
    intro k hk p hp
    have hpe : p = (sanity, sanity) := by simpa using hp
    subst hpe
    intro he
    have he2 : sanity = k := he
    exact hs (he2.symm ▸ hk)
  have hloop := specLoop_total_str g AVAILABLE_KINDS [(sanity, sanity)] hnd hfresh
  simp [makeCustomSpecificationsMapping, hloop]

/-- Witness for C1: a concrete marker not among the kinds and the
constant-string function. -/
theorem makeCustomSpecificationsMapping_success_witness :
    "sanity0" ∉ AVAILABLE_KINDS ∧
      makeCustomSpecificationsMapping "sanity0"
          (FuncInput.func (fun k => Except.ok (PyVal.pstr k))) =
        Except.ok (("sanity0", "sanity0") ::
          AVAILABLE_KINDS.map (fun k => (k, k))) :=
  ⟨by decide,
    makeCustomSpecificationsMapping_success "sanity0" (fun k => k) (by decide)⟩

/-- The builder loop, when the function returns a value on every kind
and a non-string on at least one, stops at an offending kind and raises
the validation message naming it. -/
theorem specLoop_nonstr (v : String → PyVal) (kinds : List String) :
    ∀ ret : List (String × String),
      (∃ k ∈ kinds, (v k).isStr = false) →
      ∃ k ∈ kinds, (v k).isStr = false ∧
        specLoop (fun s => Except.ok (v s)) kinds ret =
          Except.error ⟨PyErrKind.runtimeError, nonStrMsg k⟩ := by
  induction kinds with
  | nil =>
      intro ret hex
      simp at hex
  | cons k0 rest ih =>
      intro ret hex
      cases hv : v k0 with
      | pstr s =>
          have hex2 : ∃ k ∈ rest, (v k).isStr = false := by
            rcases hex with ⟨k, hk, hks⟩
            rcases List.mem_cons.mp hk with he | hm
            · subst he
              rw [hv] at hks
              simp [PyVal.isStr] at hks
            · exact ⟨k, hm, hks⟩
          rcases ih (dictInsert ret k0 s) hex2 with ⟨k, hk, hks, heq⟩
          refine ⟨k, List.mem_cons_of_mem k0 hk, hks, ?_⟩
          simpa [specLoop, hv] using heq
      | plist l =>
          refine ⟨k0, List.mem_cons_self k0 rest, by simp [hv, PyVal.isStr], ?_⟩
          simp [specLoop, hv]
      | pint n =>
          refine ⟨k0, List.mem_cons_self k0 rest, by simp [hv, PyVal.isStr], ?_⟩
          simp [specLoop, hv]
      | pnone =>
          refine ⟨k0, List.mem_cons_self k0 rest, by simp [hv, PyVal.isStr], ?_⟩
          simp [specLoop, hv]

/-- C2: for every function returning a non-string value on some known
kind, the builder raises the wrapped validation error whose message
names an offending kind (the first one reached by the loop). -/
theorem makeCustomSpecificationsMapping_nonstr (sanity : String)
    (v : String → PyVal) (h : ∃ k ∈ AVAILABLE_KINDS, (v k).isStr = false) :
    ∃ k ∈ AVAILABLE_KINDS, (v k).isStr = false ∧
      makeCustomSpecificationsMapping sanity
          (FuncInput.func (fun s => Except.ok (v s))) =
        Except.error ⟨PyErrKind.runtimeError,
          "Unable to create custom specifications:\n" ++ nonStrMsg k⟩ := by
  rcases specLoop_nonstr v AVAILABLE_KINDS [(sanity, sanity)] h with
    ⟨k, hk, hks, heq⟩
  exact ⟨k, hk, hks, by simp [makeCustomSpecificationsMapping, heq]⟩

/-- Witness for C2: the constant non-string function offends on the very
first kind. -/
theorem makeCustomSpecificationsMapping_nonstr_witness :
    (∃ k ∈ AVAILABLE_KINDS, (PyVal.pnone).isStr = false) ∧
      ∃ k ∈ AVAILABLE_KINDS, (PyVal.pnone).isStr = false ∧
        makeCustomSpecificationsMapping "sanity1"
            (FuncInput.func (fun s => Except.ok ((fun _ => PyVal.pnone) s))) =
          Except.error ⟨PyErrKind.runtimeError,
            "Unable to create custom specifications:\n" ++ nonStrMsg k⟩ :=
  ⟨⟨"class", by decide, by decide⟩,
    makeCustomSpecificationsMapping_nonstr "sanity1" (fun _ => PyVal.pnone)
      ⟨"class", by decide, by decide⟩⟩

/-- The builder loop propagates the first exception raised by the
function, provided every kind before it got a string. -/
theorem specLoop_raises (f : String → Except PyErr PyVal) (pre : List String) :
    ∀ (post : List String) (k0 : String) (ex : PyErr)
      (ret : List (String × String)),
      (∀ k ∈ pre, ∃ s, f k = Except.ok (PyVal.pstr s)) →
      f k0 = Except.error ex →
      specLoop f (pre ++ k0 :: post) ret = Except.error ex := by
  induction pre with
  | nil =>
      intro post k0 ex ret _ hk
      simp [specLoop, hk]
  | cons p ps ih =>
      intro post k0 ex ret hpre hk
      rcases hpre p (List.mem_cons_self p ps) with ⟨s, hs⟩
      have hrec := ih post k0 ex (dictInsert ret p s)
        (fun k hkm => hpre k (List.mem_cons_of_mem p hkm)) hk
      simpa [specLoop, hs] using hrec

/-- C3: when the function raises an exception at the first kind the loop
reaches that does not return a string, the builder raises the wrapped
`RuntimeError` whose message includes the original exception's message. -/
theorem makeCustomSpecificationsMapping_raises (sanity : String)
    (f : String → Except PyErr PyVal) (pre post : List String) (k0 : String)
    (ex : PyErr) (hsplit : AVAILABLE_KINDS = pre ++ k0 :: post)
    (hpre : ∀ k ∈ pre, ∃ s, f k = Except.ok (PyVal.pstr s))
    (hk : f k0 = Except.error ex) :
    makeCustomSpecificationsMapping sanity (FuncInput.func f) =
      Except.error ⟨PyErrKind.runtimeError,
        "Unable to create custom specifications:\n" ++ ex.msg⟩ := by
  have hloop := specLoop_raises f pre post k0 ex [(sanity, sanity)] hpre hk
  rw [← hsplit] at hloop
  simp [makeCustomSpecificationsMapping, hloop]

/-- Witness for C3: a function raising immediately on the first kind. -/
theorem makeCustomSpecificationsMapping_raises_witness :
    makeCustomSpecificationsMapping "sanity2"
        (FuncInput.func (fun _ => Except.error ⟨PyErrKind.otherError, "boom"⟩)) =
      Except.error ⟨PyErrKind.runtimeError,
        "Unable to create custom specifications:\n" ++ "boom"⟩ :=
  makeCustomSpecificationsMapping_raises "sanity2"
    (fun _ => Except.error ⟨PyErrKind.otherError, "boom"⟩) []
    ["struct", "function", "enum", "enumvalue", "namespace", "define",
     "typedef", "variable", "file", "dir", "group", "union"] "class"
    ⟨PyErrKind.otherError, "boom"⟩ rfl (by simp) rfl

/-- C5: with a registered (truthy) custom mapping,
`specificationsForKind` returns exactly the mapping's entry for every
kind present in it, and raises a `KeyError` for every kind absent from
it. -/
theorem specificationsForKind_custom (m : List (String × String))
    (hm : m ≠ []) (kind : String) :
    (∀ v, dictGet m kind = some v →
      specificationsForKind m kind = Except.ok (PyVal.pstr v)) ∧
    (dictGet m kind = none →
      specificationsForKind m kind = Except.error ⟨PyErrKind.keyError, kind⟩) := by
  constructor
  · intro v hv
    simp [specificationsForKind, hm, hv]
  · intro hv
    simp [specificationsForKind, hm, hv]

/-- Witness for C5: a one-entry mapping, looked up at its key and at an
absent key. -/
theorem specificationsForKind_custom_witness :
    specificationsForKind [("class", "   :members:")] "class" =
      Except.ok (PyVal.pstr "   :members:") ∧
    specificationsForKind [("class", "   :members:")] "enum" =
      Except.error ⟨PyErrKind.keyError, "enum"⟩ :=
  ⟨(specificationsForKind_custom [("class", "   :members:")] (by simp) "class").1
      "   :members:" rfl,
   (specificationsForKind_custom [("class", "   :members:")] (by simp) "enum").2 rfl⟩

/-- C6: the fatal error reporter is one-shot in the sense the code
implements: a first call supplying a cleanup hook leaves the function's
defaults in the fired state `(None, None)`, a subsequent no-argument
call (the re-entrant shape, which resolves both parameters from the
defaults) writes only the traceback — re-emitting no critical message
and never re-invoking the hook — and every call, whatever its state and
arguments, terminates the process with exit status 1. -/
theorem fancyError_one_shot (ac tty : Bool) (tb1 tb2 msg : String) (h : Hook) :
    ((fancyError ac tty tb1 fancyErrorDefaults
        (Arg.given (some msg)) (Arg.given (some h))).defaultsAfter
      = (none, none)) ∧
    ((fancyError ac tty tb2
        (fancyError ac tty tb1 fancyErrorDefaults
          (Arg.given (some msg)) (Arg.given (some h))).defaultsAfter
        Arg.omitted Arg.omitted).hookInvoked = false) ∧
    ((fancyError ac tty tb2
        (fancyError ac tty tb1 fancyErrorDefaults
          (Arg.given (some msg)) (Arg.given (some h))).defaultsAfter
        Arg.omitted Arg.omitted).writes = [tb2]) ∧
    (∀ (d : Option String × Option Hook) (a : Arg (Option String))
        (b : Arg (Option Hook)),
      (fancyError ac tty tb2 d a b).exitCode = 1) := by
  refine ⟨?_, ?_, ?_, ?_⟩
  · cases h <;> rfl
  · cases h <;> rfl
  · cases h <;> rfl
  · intro d a b
    cases hres : b.resolve d.2 with
    | none => simp [fancyError, hres]
    | some hk => cases hk <;> simp [fancyError, hres]
